import Mathlib

/-!
Shallow embedding of the hotel-analytics core of the repository
(`utils.py`, `models.py`, `booking_tracker.py`, `analytics_engine.py`).

Conventions of the embedding:
* Python `date` values are day numbers in `Int` (subtraction of dates is
  subtraction of day numbers, `timedelta(days=i)` is `+ i`).
* Python `float` amounts are `ℚ`.
* A spreadsheet record (a Python `dict` produced by `get_all_records`) is a
  structure; a field read with `record.get(key, default)` is an `Option`
  field read with `Option.getD`, a field read with `record[key]` is a plain
  field.
* A remote worksheet read that can fail is `Except String (List _)`; a
  Python `try/except` that logs and returns a default is a `match` whose
  `.error` arm returns that default.
* The bodies of the analytics-engine methods cannot raise in this typed
  embedding (the only raise sites in the source bodies are string-to-number
  and string-to-date conversions of already-fetched cell values, which the
  typed record fields make total), so a `try/except/raise` wrapper around a
  body is the body itself, and a `try/except/return-default` wrapper whose
  body is total is also the body itself.
-/

namespace HotelNico

/-! ### config.py -/

namespace Config

/-- `Config.TOTAL_ROOMS` from `config.py` line 19. -/
def TOTAL_ROOMS : Nat := 10

/-- `Config.LOW_OCCUPANCY_THRESHOLD` from `config.py` line 50. -/
def LOW_OCCUPANCY_THRESHOLD : ℚ := 60

end Config

/-! ### utils.py -/

/-- `calculate_occupancy_percentage` from `utils.py` lines 151-155. -/
def calculate_occupancy_percentage (occupied_rooms total_rooms : Nat) : ℚ :=
  if total_rooms = 0 then 0
  else ((occupied_rooms : ℚ) / (total_rooms : ℚ)) * 100

/-- `average` from `utils.py` lines 287-291. -/
def average (values : List ℚ) : ℚ :=
  if values.isEmpty then 0
  else values.sum / (values.length : ℚ)

/-- `get_date_range` from `utils.py` lines 98-105: the list of dates from
`start_date` to `end_date` inclusive (empty when `start_date > end_date`);
this is also the exact sequence of dates visited by the
`while current_date <= end_date` loops of `analytics_engine.py`. -/
def get_date_range (start_date end_date : Int) : List Int :=
  (List.range (end_date + 1 - start_date).toNat).map (fun (i : Nat) => start_date + (i : Int))

/-! ### models.py -/

/-- `PaymentStatus` from `models.py` lines 30-35. -/
inductive PaymentStatus
  | PENDING
  | PARTIAL
  | PAID
  | REFUNDED
deriving DecidableEq

/-- `Guest` from `models.py` lines 38-50 (fields the `Booking` methods can
reach; the enumerated category is kept as its string value). -/
structure Guest where
  name : String
  phone : String
  id_number : String
  category : String
deriving DecidableEq

/-- `Booking` from `models.py` lines 94-112. -/
structure Booking where
  booking_id : String
  guest : Guest
  room_number : String
  check_in_date : Int
  check_out_date : Int
  number_of_guests : Nat
  room_rate : ℚ
  total_amount : ℚ
  advance_paid : ℚ
  balance_amount : ℚ
  payment_status : PaymentStatus
  booking_source : String
  special_requests : String
  created_at : Int
  checked_in : Bool
  checked_out : Bool
deriving DecidableEq

/-- `Booking.update_balance` from `models.py` lines 122-132. -/
def Booking.update_balance (b : Booking) : Booking :=
  let b1 := { b with balance_amount := b.total_amount - b.advance_paid }
  if b1.balance_amount ≤ 0 then
    { b1 with payment_status := PaymentStatus.PAID }
  else if b1.advance_paid > 0 then
    { b1 with payment_status := PaymentStatus.PARTIAL }
  else
    { b1 with payment_status := PaymentStatus.PENDING }

/-! ### booking_tracker.py

A `BookingRec` is a row of the "Bookings" worksheet as returned by
`get_all_records`; `ExpenseRec` and `FeedbackRec` are rows of the
"Expenses" and "Feedback" worksheets. -/

/-- A bookings-sheet record. Keys read via `record[...]` are plain fields;
keys read via `record.get(..., default)` are `Option` fields. -/
structure BookingRec where
  booking_id : String
  guest_name : String
  category : Option String
  room_number : String
  check_in : Int
  check_out : Int
  rate : Option ℚ
  total : Option ℚ
  advance : Option ℚ
  balance : Option ℚ
  source : Option String
  checked_in : Option Bool
  checked_out : Option Bool
deriving DecidableEq

/-- An expenses-sheet record. -/
structure ExpenseRec where
  expense_id : String
  date : Int
  amount : Option ℚ
deriving DecidableEq

/-- A feedback-sheet record. -/
structure FeedbackRec where
  feedback_id : String
  date : Int
  rating : Option ℚ
deriving DecidableEq

namespace BookingTracker

/-- `BookingTracker.get_active_bookings` from `booking_tracker.py` lines
222-243: filters the sheet's records by
`check_in <= target_date < check_out and not record.get('Checked Out', False)`;
the `except` arm returns `[]`. -/
def get_active_bookings (bookings_sheet : Except String (List BookingRec))
    (target_date : Int) : List BookingRec :=
  match bookings_sheet with
  | .ok all_records =>
      all_records.filter (fun record =>
        decide (record.check_in ≤ target_date) && decide (target_date < record.check_out)
          && !(record.checked_out.getD false))
  | .error _ => []

/-- `BookingTracker.get_todays_checkins` from `booking_tracker.py` lines
245-261; the `except` arm returns `[]`. -/
def get_todays_checkins (bookings_sheet : Except String (List BookingRec))
    (today : Int) : List BookingRec :=
  match bookings_sheet with
  | .ok all_records =>
      all_records.filter (fun record =>
        decide (record.check_in = today) && !(record.checked_in.getD false))
  | .error _ => []

/-- `BookingTracker.get_todays_checkouts` from `booking_tracker.py` lines
263-279; the `except` arm returns `[]`. -/
def get_todays_checkouts (bookings_sheet : Except String (List BookingRec))
    (today : Int) : List BookingRec :=
  match bookings_sheet with
  | .ok all_records =>
      all_records.filter (fun record =>
        decide (record.check_out = today) && !(record.checked_out.getD false))
  | .error _ => []

/-- `BookingTracker.get_expenses_by_date` from `booking_tracker.py` lines
350-365; the `except` arm returns `[]`. -/
def get_expenses_by_date (expenses_sheet : Except String (List ExpenseRec))
    (target_date : Int) : List ExpenseRec :=
  match expenses_sheet with
  | .ok all_records =>
      all_records.filter (fun record => decide (record.date = target_date))
  | .error _ => []

/-- `BookingTracker.get_recent_feedback` from `booking_tracker.py` lines
391-405: sorts the records by date, most recent first, and keeps the first
`limit` of them; the `except` arm returns `[]`.  Python's `sorted` with
`reverse=True` is a stable descending sort, which is exactly
`List.insertionSort` with the relation `b.date ≤ a.date` ("`a` may be
placed before `b`"): an element is inserted before the first element of
equal or smaller key, so equal-key elements keep their original order. -/
def get_recent_feedback (feedback_sheet : Except String (List FeedbackRec))
    (limit : Nat) : List FeedbackRec :=
  match feedback_sheet with
  | .ok all_records =>
      (all_records.insertionSort (fun a b => b.date ≤ a.date)).take limit
  | .error _ => []

end BookingTracker

/-! ### analytics_engine.py -/

/-- `DailyReport` from `models.py` lines 220-240 (the fields populated by
`generate_daily_report`). -/
structure DailyReport where
  report_date : Int
  total_rooms : Nat
  occupied_rooms : Nat
  available_rooms : Int
  occupancy_percentage : ℚ
  check_ins : Nat
  check_outs : Nat
  total_revenue : ℚ
  total_expenses : ℚ
  net_profit : ℚ
  advance_collected : ℚ
  balance_pending : ℚ
  new_bookings : Nat
  cancellations : Nat
  average_room_rate : ℚ
  guest_feedback_count : Nat
  average_rating : ℚ
deriving DecidableEq

/-- The alert payload built by `get_low_occupancy_alert`
(`analytics_engine.py` lines 180-186; the `message` string is presentation
and is omitted). -/
structure OccupancyAlert where
  occupancy : ℚ
  threshold : ℚ
  available_rooms : Int
deriving DecidableEq

/-- A summary as built by `get_weekly_summary` / `get_monthly_summary`
(`analytics_engine.py` lines 250-258 and 292-300). -/
structure PeriodSummary where
  start_date : Int
  end_date : Int
  total_revenue : ℚ
  total_expenses : ℚ
  net_profit : ℚ
  average_occupancy : ℚ
  days : Int
deriving DecidableEq

namespace AnalyticsEngine

/-- `AnalyticsEngine.generate_daily_report` from `analytics_engine.py`
lines 34-104.  The engine's `except ...: raise` re-raises whatever the body
raised; the body is total here (see the header note), so the wrapper is the
body.  `today` is `get_today()`. -/
def generate_daily_report (bookings_sheet : Except String (List BookingRec))
    (expenses_sheet : Except String (List ExpenseRec))
    (feedback_sheet : Except String (List FeedbackRec))
    (today : Int) (target_date : Int) : DailyReport :=
  let active_bookings := BookingTracker.get_active_bookings bookings_sheet target_date
  let occupied_rooms := active_bookings.length
  let available_rooms : Int := (Config.TOTAL_ROOMS : Int) - (occupied_rooms : Int)
  let occupancy_pct := calculate_occupancy_percentage occupied_rooms Config.TOTAL_ROOMS
  let checkins := if target_date = today
    then BookingTracker.get_todays_checkins bookings_sheet today else []
  let checkouts := if target_date = today
    then BookingTracker.get_todays_checkouts bookings_sheet today else []
  let total_revenue := (active_bookings.map (fun b => b.total.getD 0)).sum
  let advance_collected := (active_bookings.map (fun b => b.advance.getD 0)).sum
  let balance_pending := (active_bookings.map (fun b => b.balance.getD 0)).sum
  let avg_rate := if active_bookings.isEmpty then 0
    else average (active_bookings.map (fun b => b.rate.getD 0))
  let expenses := BookingTracker.get_expenses_by_date expenses_sheet target_date
  let total_expenses := (expenses.map (fun e => e.amount.getD 0)).sum
  let net_profit := total_revenue - total_expenses
  let feedback := BookingTracker.get_recent_feedback feedback_sheet 100
  let today_feedback := feedback.filter (fun f => decide (f.date = target_date))
  let avg_rating := if today_feedback.isEmpty then 0
    else average (today_feedback.map (fun f => f.rating.getD 0))
  { report_date := target_date
    total_rooms := Config.TOTAL_ROOMS
    occupied_rooms := occupied_rooms
    available_rooms := available_rooms
    occupancy_percentage := occupancy_pct
    check_ins := checkins.length
    check_outs := checkouts.length
    total_revenue := total_revenue
    total_expenses := total_expenses
    net_profit := net_profit
    advance_collected := advance_collected
    balance_pending := balance_pending
    new_bookings := 0
    cancellations := 0
    average_room_rate := avg_rate
    guest_feedback_count := today_feedback.length
    average_rating := avg_rating }

/-- `AnalyticsEngine.get_occupancy_trend` from `analytics_engine.py` lines
106-122: for `i` in `range(days)` append `(today - i, occupancy)`, then
return the reversed list.  The body is total (its only calls are tracker
queries, which catch their own failures), so the `except ...: return []`
arm is dead and the wrapper is the body. -/
def get_occupancy_trend (bookings_sheet : Except String (List BookingRec))
    (today : Int) (days : Nat) : List (Int × ℚ) :=
  ((List.range days).map (fun (i : Nat) =>
    let target_date := today - (i : Int)
    let active_bookings := BookingTracker.get_active_bookings bookings_sheet target_date
    (target_date, calculate_occupancy_percentage active_bookings.length Config.TOTAL_ROOMS))).reverse

/-- `AnalyticsEngine.get_revenue_trend` from `analytics_engine.py` lines
124-140 (same shape as `get_occupancy_trend`, with the summed `Total`
column as the metric). -/
def get_revenue_trend (bookings_sheet : Except String (List BookingRec))
    (today : Int) (days : Nat) : List (Int × ℚ) :=
  ((List.range days).map (fun (i : Nat) =>
    let target_date := today - (i : Int)
    let active_bookings := BookingTracker.get_active_bookings bookings_sheet target_date
    (target_date, (active_bookings.map (fun b => b.total.getD 0)).sum))).reverse

/-- `categories.get(category, 0)` — a Python `dict` lookup with default,
on a dict represented as an insertion-ordered association list with
distinct keys. -/
def pyDictGetD (d : List (String × Nat)) (k : String) (default : Nat) : Nat :=
  match d.find? (fun p => p.1 == k) with
  | some p => p.2
  | none => default

/-- `categories[category] = v` — a Python `dict` item assignment: updates
the entry in place if the key is present, otherwise appends it (Python
dicts preserve insertion order). -/
def pyDictSet (d : List (String × Nat)) (k : String) (v : Nat) : List (String × Nat) :=
  if d.any (fun p => p.1 == k) then d.map (fun p => if p.1 == k then (k, v) else p)
  else d ++ [(k, v)]

/-- One iteration of the tally loop of
`AnalyticsEngine.analyze_guest_categories` (`analytics_engine.py` lines
149-150): `category = booking.get('Category', 'UNKNOWN');
categories[category] = categories.get(category, 0) + 1`. -/
def tallyStep (categories : List (String × Nat)) (booking : BookingRec) :
    List (String × Nat) :=
  let category := booking.category.getD "UNKNOWN"
  pyDictSet categories category (pyDictGetD categories category 0 + 1)

/-- The tally loop of `AnalyticsEngine.analyze_guest_categories`
(`analytics_engine.py` lines 147-152), starting from the empty dict. -/
def categoriesTally (bookings : List BookingRec) : List (String × Nat) :=
  bookings.foldl tallyStep []

/-- `AnalyticsEngine.analyze_guest_categories` from `analytics_engine.py`
lines 142-156: tallies the categories of today's active bookings. -/
def analyze_guest_categories (bookings_sheet : Except String (List BookingRec))
    (today : Int) : List (String × Nat) :=
  categoriesTally (BookingTracker.get_active_bookings bookings_sheet today)

/-- The threshold comparison of `AnalyticsEngine.get_low_occupancy_alert`
(`analytics_engine.py` lines 179-188), as a function of the daily report it
is applied to: the alert payload when
`report.occupancy_percentage < Config.LOW_OCCUPANCY_THRESHOLD`, else
`None`. -/
def get_low_occupancy_alert (report : DailyReport) : Option OccupancyAlert :=
  if report.occupancy_percentage < Config.LOW_OCCUPANCY_THRESHOLD then
    some { occupancy := report.occupancy_percentage
           threshold := Config.LOW_OCCUPANCY_THRESHOLD
           available_rooms := report.available_rooms }
  else none

/-- The per-day accumulation loop shared verbatim by
`AnalyticsEngine.get_weekly_summary` (`analytics_engine.py` lines 222-262)
and `get_monthly_summary` (lines 264-304), parametrized by the date range
the two wrappers pass in (`get_week_dates()` / `get_month_dates()`); the
spec calls this common routine `buildPeriodSummary`.  The loop visits
`get_date_range start_date end_date` and accumulates daily revenue,
expenses, and occupancy; `days := (end_date - start_date).days + 1`. -/
def periodSummary (bookings_sheet : Except String (List BookingRec))
    (expenses_sheet : Except String (List ExpenseRec))
    (start_date end_date : Int) : PeriodSummary :=
  let day_list := get_date_range start_date end_date
  let total_revenue := (day_list.map (fun d =>
    ((BookingTracker.get_active_bookings bookings_sheet d).map (fun b => b.total.getD 0)).sum)).sum
  let total_expenses := (day_list.map (fun d =>
    ((BookingTracker.get_expenses_by_date expenses_sheet d).map (fun e => e.amount.getD 0)).sum)).sum
  let occupancy_rates := day_list.map (fun d =>
    calculate_occupancy_percentage
      (BookingTracker.get_active_bookings bookings_sheet d).length Config.TOTAL_ROOMS)
  let avg_occupancy := if occupancy_rates.isEmpty then 0 else average occupancy_rates
  { start_date := start_date
    end_date := end_date
    total_revenue := total_revenue
    total_expenses := total_expenses
    net_profit := total_revenue - total_expenses
    average_occupancy := avg_occupancy
    days := (end_date - start_date) + 1 }

/-- The rule table of `AnalyticsEngine.suggest_pricing_strategy`
(`analytics_engine.py` lines 312-337) as a function of the occupancy
percentage: every branch appends exactly one suggestion to the
`suggestions` list; the value kept here is the branch's `"strategy"`
string (the `"action"`/`"reason"` strings are presentation). -/
def suggest_pricing_strategy (occupancy : ℚ) : List String :=
  if occupancy < 50 then ["Aggressive Discount"]
  else if occupancy < 70 then ["Moderate Discount"]
  else if occupancy < 90 then ["Standard Pricing"]
  else ["Premium Pricing"]

end AnalyticsEngine

/-- A feedback sheet with 101 records: 100 recent ones dated day 10 and a
single older one dated day 5 (the only record dated day 5, rating 4). -/
def feedback_overflow : List FeedbackRec :=
  List.replicate 100 { feedback_id := "FA", date := 10, rating := some 5 } ++
    [{ feedback_id := "FB", date := 5, rating := some 4 }]

/-! ## Theorems -/

/-- C1: a booking record is returned by the active-bookings query for a
date `D` iff it is in the store, `check_in <= D < check_out` (half-open:
the check-out day is excluded), and it has not been checked out. -/
theorem active_bookings_mem_iff
    (all_records : List BookingRec) (target_date : Int) (record : BookingRec) :
    record ∈ BookingTracker.get_active_bookings (Except.ok all_records) target_date ↔
      (record ∈ all_records ∧ record.check_in ≤ target_date ∧
        target_date < record.check_out ∧ record.checked_out.getD false = false) := by
  simp [BookingTracker.get_active_bookings, List.mem_filter, and_assoc,
    Bool.and_eq_true, decide_eq_true_eq, Bool.not_eq_true']

/-- C2: the occupancy-percentage function returns `O / C * 100` whenever
the capacity `C` is positive, and returns exactly `0` when `C = 0` (the
guard takes the zero branch before any division). -/
theorem occupancy_percentage_spec (O C : Nat) :
    (0 < C → calculate_occupancy_percentage O C = (O : ℚ) / (C : ℚ) * 100) ∧
      calculate_occupancy_percentage O 0 = 0 := by
  refine ⟨fun hC => ?_, by simp [calculate_occupancy_percentage]⟩
  rw [calculate_occupancy_percentage, if_neg (by omega)]

/-- Witness for C2 at `O = 5, C = 10` and `O = 5, C = 0`. -/
theorem occupancy_percentage_spec_witness :
    calculate_occupancy_percentage 5 10 = 50 ∧ calculate_occupancy_percentage 5 0 = 0 := by
  refine ⟨?_, (occupancy_percentage_spec 5 0).2⟩
  rw [(occupancy_percentage_spec 5 10).1 (by norm_num)]
  norm_num

/-- C3: the pricing rules are a first-match-wins chain with exclusive
upper bounds — `p < 50` gives "Aggressive Discount", `50 ≤ p < 70` gives
"Moderate Discount", `70 ≤ p < 90` gives "Standard Pricing", `90 ≤ p`
gives "Premium Pricing" — and exactly one strategy is produced for every
occupancy value. -/
theorem pricing_strategy_spec (p : ℚ) :
    (p < 50 → AnalyticsEngine.suggest_pricing_strategy p = ["Aggressive Discount"]) ∧
    (50 ≤ p → p < 70 → AnalyticsEngine.suggest_pricing_strategy p = ["Moderate Discount"]) ∧
    (70 ≤ p → p < 90 → AnalyticsEngine.suggest_pricing_strategy p = ["Standard Pricing"]) ∧
    (90 ≤ p → AnalyticsEngine.suggest_pricing_strategy p = ["Premium Pricing"]) ∧
    (AnalyticsEngine.suggest_pricing_strategy p).length = 1 := by
  unfold AnalyticsEngine.suggest_pricing_strategy
  refine ⟨fun h => by rw [if_pos h], fun h1 h2 => ?_, fun h1 h2 => ?_, fun h => ?_, ?_⟩
  · rw [if_neg (by linarith), if_pos h2]
  · rw [if_neg (by linarith), if_neg (by linarith), if_pos h2]
  · rw [if_neg (by linarith), if_neg (by linarith), if_neg (by linarith)]
  · split_ifs <;> rfl

/-- Witness for C3 at the spec's boundary occupancies
`49.999, 50, 69.999, 70, 89.999, 90`. -/
theorem pricing_strategy_spec_witness :
    AnalyticsEngine.suggest_pricing_strategy (49999/1000) = ["Aggressive Discount"] ∧
    AnalyticsEngine.suggest_pricing_strategy 50 = ["Moderate Discount"] ∧
    AnalyticsEngine.suggest_pricing_strategy (69999/1000) = ["Moderate Discount"] ∧
    AnalyticsEngine.suggest_pricing_strategy 70 = ["Standard Pricing"] ∧
    AnalyticsEngine.suggest_pricing_strategy (89999/1000) = ["Standard Pricing"] ∧
    AnalyticsEngine.suggest_pricing_strategy 90 = ["Premium Pricing"] :=
  ⟨(pricing_strategy_spec _).1 (by norm_num),
   (pricing_strategy_spec _).2.1 (by norm_num) (by norm_num),
   (pricing_strategy_spec _).2.1 (by norm_num) (by norm_num),
   (pricing_strategy_spec _).2.2.1 (by norm_num) (by norm_num),
   (pricing_strategy_spec _).2.2.1 (by norm_num) (by norm_num),
   (pricing_strategy_spec _).2.2.2.1 (by norm_num)⟩

/-- C10: after `update_balance`, the balance equals
`total_amount - advance_paid`; the payment status is PAID iff that balance
is `≤ 0`, PARTIAL iff it is `> 0` with a positive advance, and PENDING
otherwise; and every other field of the booking is unchanged. -/
theorem update_balance_spec (b : Booking) :
    (Booking.update_balance b).balance_amount = b.total_amount - b.advance_paid ∧
    ((Booking.update_balance b).payment_status = PaymentStatus.PAID ↔
      b.total_amount - b.advance_paid ≤ 0) ∧
    ((Booking.update_balance b).payment_status = PaymentStatus.PARTIAL ↔
      0 < b.total_amount - b.advance_paid ∧ 0 < b.advance_paid) ∧
    ((Booking.update_balance b).payment_status = PaymentStatus.PENDING ↔
      0 < b.total_amount - b.advance_paid ∧ ¬ 0 < b.advance_paid) ∧
    (Booking.update_balance b).booking_id = b.booking_id ∧
    (Booking.update_balance b).guest = b.guest ∧
    (Booking.update_balance b).room_number = b.room_number ∧
    (Booking.update_balance b).check_in_date = b.check_in_date ∧
    (Booking.update_balance b).check_out_date = b.check_out_date ∧
    (Booking.update_balance b).number_of_guests = b.number_of_guests ∧
    (Booking.update_balance b).room_rate = b.room_rate ∧
    (Booking.update_balance b).total_amount = b.total_amount ∧
    (Booking.update_balance b).advance_paid = b.advance_paid ∧
    (Booking.update_balance b).booking_source = b.booking_source ∧
    (Booking.update_balance b).special_requests = b.special_requests ∧
    (Booking.update_balance b).created_at = b.created_at ∧
    (Booking.update_balance b).checked_in = b.checked_in ∧
    (Booking.update_balance b).checked_out = b.checked_out := by
  simp only [Booking.update_balance]
  split_ifs with h1 h2 <;>
    refine ⟨rfl, ?_, ?_, ?_, rfl, rfl, rfl, rfl, rfl, rfl, rfl, rfl, rfl, rfl,
      rfl, rfl, rfl, rfl⟩ <;>
    simp_all

/-- Witness for C10 at a concrete booking with total `3000`, advance
`1000`: the balance becomes `2000` and the status PARTIAL. -/
theorem update_balance_spec_witness :
    (Booking.update_balance
      { booking_id := "BK-1"
        guest := { name := "A", phone := "9", id_number := "X", category := "LOCAL" }
        room_number := "101", check_in_date := 0, check_out_date := 2
        number_of_guests := 2, room_rate := 1500, total_amount := 3000
        advance_paid := 1000, balance_amount := 0
        payment_status := PaymentStatus.PENDING, booking_source := "Direct"
        special_requests := "", created_at := 0
        checked_in := false, checked_out := false }).payment_status =
      PaymentStatus.PARTIAL := by
  exact (update_balance_spec _).2.2.1.2 (by norm_num)

/-- Shape of both trend builders: the reversed `(today - i, F (today - i))`
sequence for `i` in `range days` has `days` points, strictly ascending
dates ending at `today`, and each point's value is `F` of its own date. -/
lemma revTrend_spec (F : Int → ℚ) (today : Int) (days : Nat) (h : 1 ≤ days) :
    (((List.range days).map
        (fun (i : Nat) => (today - (i : Int), F (today - (i : Int))))).reverse.length = days) ∧
    ((((List.range days).map
        (fun (i : Nat) => (today - (i : Int), F (today - (i : Int))))).reverse.map
          Prod.fst).Pairwise (· < ·)) ∧
    ((((List.range days).map
        (fun (i : Nat) => (today - (i : Int), F (today - (i : Int))))).reverse.map
          Prod.fst).getLast? = some today) ∧
    (∀ p ∈ ((List.range days).map
        (fun (i : Nat) => (today - (i : Int), F (today - (i : Int))))).reverse,
      p.2 = F p.1) := by
  have hmap : (((List.range days).map
        (fun (i : Nat) => (today - (i : Int), F (today - (i : Int))))).reverse.map Prod.fst) =
      ((List.range days).map (fun (i : Nat) => today - (i : Int))).reverse := by
    simp [List.map_reverse, List.map_map, Function.comp]
  refine ⟨by simp, ?_, ?_, ?_⟩
  · rw [hmap, List.pairwise_reverse, List.pairwise_map]
    exact (List.pairwise_lt_range days).imp (fun hij => by omega)
  · rw [hmap]
    obtain ⟨m, rfl⟩ : ∃ m, days = m + 1 := ⟨days - 1, by omega⟩
    rw [List.range_succ_eq_map, List.map_cons, List.reverse_cons, List.getLast?_concat]
    simp
  · intro p hp
    rw [List.mem_reverse, List.mem_map] at hp
    obtain ⟨i, _, rfl⟩ := hp
    rfl

/-- C7: for every window size `days ≥ 1`, both trend operations return
exactly `days` points, in strictly ascending date order with the last date
equal to today, and each point's value is computed from the
active-bookings query for that point's own date. -/
theorem trend_spec (bookings_sheet : Except String (List BookingRec))
    (today : Int) (days : Nat) (h : 1 ≤ days) :
    (AnalyticsEngine.get_occupancy_trend bookings_sheet today days).length = days ∧
    ((AnalyticsEngine.get_occupancy_trend bookings_sheet today days).map
      Prod.fst).Pairwise (· < ·) ∧
    ((AnalyticsEngine.get_occupancy_trend bookings_sheet today days).map
      Prod.fst).getLast? = some today ∧
    (∀ p ∈ AnalyticsEngine.get_occupancy_trend bookings_sheet today days,
      p.2 = calculate_occupancy_percentage
        (BookingTracker.get_active_bookings bookings_sheet p.1).length Config.TOTAL_ROOMS) ∧
    (AnalyticsEngine.get_revenue_trend bookings_sheet today days).length = days ∧
    ((AnalyticsEngine.get_revenue_trend bookings_sheet today days).map
      Prod.fst).Pairwise (· < ·) ∧
    ((AnalyticsEngine.get_revenue_trend bookings_sheet today days).map
      Prod.fst).getLast? = some today ∧
    (∀ p ∈ AnalyticsEngine.get_revenue_trend bookings_sheet today days,
      p.2 = ((BookingTracker.get_active_bookings bookings_sheet p.1).map
        (fun b => b.total.getD 0)).sum) := by
  obtain ⟨o1, o2, o3, o4⟩ := revTrend_spec (fun dd => calculate_occupancy_percentage
    (BookingTracker.get_active_bookings bookings_sheet dd).length Config.TOTAL_ROOMS)
    today days h
  obtain ⟨r1, r2, r3, r4⟩ := revTrend_spec (fun dd =>
    ((BookingTracker.get_active_bookings bookings_sheet dd).map
      (fun b => b.total.getD 0)).sum) today days h
  simp only [AnalyticsEngine.get_occupancy_trend, AnalyticsEngine.get_revenue_trend]
  exact ⟨o1, o2, o3, o4, r1, r2, r3, r4⟩

/-- Witness for C7: the spec's 3-day example over an empty store ending at
day `0`. -/
theorem trend_spec_witness :
    (AnalyticsEngine.get_occupancy_trend (Except.ok []) 0 3).length = 3 ∧
    ((AnalyticsEngine.get_occupancy_trend (Except.ok []) 0 3).map
      Prod.fst).getLast? = some 0 := by
  have h := trend_spec (Except.ok []) 0 3 (by norm_num)
  exact ⟨h.1, h.2.2.1⟩

/-- C4 counterexample: with the remote store unreachable, the tracker
query returns `[]` instead of surfacing an error, and the daily report,
the trend, and the period summary built over the failing store are
identical to the ones built over a store that is reachable but empty —
the failure is replaced by silent empty defaults, and no distinct error
reaches the caller of any aggregator operation. -/
theorem fetch_failure_swallowed_cex :
    BookingTracker.get_active_bookings (Except.error "store unreachable") 0 = [] ∧
    AnalyticsEngine.generate_daily_report (Except.error "store unreachable")
        (Except.error "store unreachable") (Except.error "store unreachable") 0 0 =
      AnalyticsEngine.generate_daily_report (Except.ok []) (Except.ok []) (Except.ok []) 0 0 ∧
    AnalyticsEngine.get_occupancy_trend (Except.error "store unreachable") 0 7 =
      AnalyticsEngine.get_occupancy_trend (Except.ok []) 0 7 ∧
    AnalyticsEngine.periodSummary (Except.error "store unreachable")
        (Except.error "store unreachable") 0 6 =
      AnalyticsEngine.periodSummary (Except.ok []) (Except.ok []) 0 6 :=
  ⟨rfl, rfl, rfl, rfl⟩

/-- C4 amended: a failure to read from the Booking Store is not surfaced —
every tracker query catches it and returns the empty list, so daily-report
generation, trend computation, and period-summary computation all return
exactly the result they would return for an empty store, substituting
silent empty defaults for the missing data source. -/
theorem fetch_failure_defaults (e : String) (d today start_d end_d : Int) (days : Nat) :
    BookingTracker.get_active_bookings (Except.error e) d = [] ∧
    BookingTracker.get_expenses_by_date (Except.error e) d = [] ∧
    BookingTracker.get_recent_feedback (Except.error e) 100 = [] ∧
    AnalyticsEngine.generate_daily_report (Except.error e) (Except.error e)
        (Except.error e) today d =
      AnalyticsEngine.generate_daily_report (Except.ok []) (Except.ok [])
        (Except.ok []) today d ∧
    AnalyticsEngine.get_occupancy_trend (Except.error e) today days =
      AnalyticsEngine.get_occupancy_trend (Except.ok []) today days ∧
    AnalyticsEngine.get_revenue_trend (Except.error e) today days =
      AnalyticsEngine.get_revenue_trend (Except.ok []) today days ∧
    AnalyticsEngine.periodSummary (Except.error e) (Except.error e) start_d end_d =
      AnalyticsEngine.periodSummary (Except.ok []) (Except.ok []) start_d end_d := by
  refine ⟨rfl, rfl, rfl, ?_, ?_, ?_, ?_⟩ <;>
    simp [AnalyticsEngine.generate_daily_report, AnalyticsEngine.get_occupancy_trend,
      AnalyticsEngine.get_revenue_trend, AnalyticsEngine.periodSummary,
      BookingTracker.get_active_bookings, BookingTracker.get_expenses_by_date,
      BookingTracker.get_todays_checkins, BookingTracker.get_todays_checkouts,
      BookingTracker.get_recent_feedback]

/-- C8: over the single-day range `[d, d]`, the period summary computed
from the same store contents has the daily report's revenue and expense
totals for `d`, and its day count is `1`. -/
theorem period_summary_single_day
    (bookings_sheet : Except String (List BookingRec))
    (expenses_sheet : Except String (List ExpenseRec))
    (feedback_sheet : Except String (List FeedbackRec))
    (today d : Int) :
    (AnalyticsEngine.periodSummary bookings_sheet expenses_sheet d d).total_revenue =
      (AnalyticsEngine.generate_daily_report bookings_sheet expenses_sheet
        feedback_sheet today d).total_revenue ∧
    (AnalyticsEngine.periodSummary bookings_sheet expenses_sheet d d).total_expenses =
      (AnalyticsEngine.generate_daily_report bookings_sheet expenses_sheet
        feedback_sheet today d).total_expenses ∧
    (AnalyticsEngine.periodSummary bookings_sheet expenses_sheet d d).days = 1 := by
  have h1 : d + 1 - d = 1 := by ring
  have h2 : List.range 1 = [0] := rfl
  have hrange : get_date_range d d = [d] := by
    simp [get_date_range, h1, h2]
  refine ⟨?_, ?_, ?_⟩ <;>
    simp [AnalyticsEngine.periodSummary, AnalyticsEngine.generate_daily_report, hrange]

/-- The update pass of `pyDictSet` leaves entries with other keys alone. -/
lemma map_update_eq_self (rest : List (String × Nat)) (c : String) (v : Nat)
    (h : ∀ q ∈ rest, (q.1 == c) = false) :
    rest.map (fun q => if q.1 == c then (c, v) else q) = rest := by
  induction rest with
  | nil => rfl
  | cons p l ih =>
    rw [List.map_cons, if_neg (by simp [h p (by simp)]),
      ih (fun q hq => h q (by simp [hq]))]

/-- `pyDictSet` on a list whose head has a different key. -/
lemma pyDictSet_cons_ne (p : String × Nat) (rest : List (String × Nat))
    (c : String) (v : Nat) (h : (p.1 == c) = false) :
    AnalyticsEngine.pyDictSet (p :: rest) c v =
      p :: AnalyticsEngine.pyDictSet rest c v := by
  unfold AnalyticsEngine.pyDictSet
  cases hany : rest.any (fun q => q.1 == c) with
  | true =>
    rw [if_pos (by simp [List.any_cons, hany]), if_pos rfl, List.map_cons,
      if_neg (by simp [h])]
  | false =>
    rw [if_neg (by simp [List.any_cons, hany, h]), if_neg (by simp),
      List.cons_append]

/-- `pyDictSet` on a list whose head has the matching key (keys distinct):
it replaces the head and leaves the tail alone. -/
lemma pyDictSet_cons_self (p : String × Nat) (rest : List (String × Nat))
    (c : String) (v : Nat) (h : (p.1 == c) = true)
    (hnd : ((p :: rest).map Prod.fst).Nodup) :
    AnalyticsEngine.pyDictSet (p :: rest) c v = (c, v) :: rest := by
  have hc : p.1 = c := by simpa using h
  have h1 : p.1 ∉ rest.map Prod.fst := (List.nodup_cons.mp (by simpa using hnd)).1
  have hrest : ∀ q ∈ rest, (q.1 == c) = false := by
    intro q hq
    have h2 : q.1 ≠ c := by
      intro hqc
      exact h1 (hc ▸ hqc ▸ List.mem_map_of_mem Prod.fst hq)
    simpa using h2
  unfold AnalyticsEngine.pyDictSet
  rw [if_pos (by simp [List.any_cons, h]), List.map_cons, if_pos h,
    map_update_eq_self rest c v hrest]

/-- `pyDictGetD` on a cons: take the head's value if its key matches. -/
lemma pyDictGetD_cons (p : String × Nat) (rest : List (String × Nat))
    (k : String) (v0 : Nat) :
    AnalyticsEngine.pyDictGetD (p :: rest) k v0 =
      if p.1 == k then p.2 else AnalyticsEngine.pyDictGetD rest k v0 := by
  unfold AnalyticsEngine.pyDictGetD
  cases hpk : p.1 == k with
  | true => rw [List.find?_cons]; simp [hpk]
  | false => rw [List.find?_cons]; simp [hpk]

/-- Reading back the key just written by `pyDictSet` (keys distinct). -/
lemma pyDictGetD_set_self (d : List (String × Nat)) (c : String) (v : Nat)
    (hnd : (d.map Prod.fst).Nodup) :
    AnalyticsEngine.pyDictGetD (AnalyticsEngine.pyDictSet d c v) c 0 = v := by
  induction d with
  | nil => simp [AnalyticsEngine.pyDictSet, AnalyticsEngine.pyDictGetD]
  | cons p rest ih =>
    cases hpc : p.1 == c with
    | true =>
      rw [pyDictSet_cons_self p rest c v hpc hnd, pyDictGetD_cons]
      simp
    | false =>
      rw [pyDictSet_cons_ne p rest c v hpc, pyDictGetD_cons, if_neg (by simp [hpc])]
      exact ih (List.nodup_cons.mp (by simpa using hnd)).2

/-- Reading any other key after `pyDictSet` (keys distinct). -/
lemma pyDictGetD_set_ne (d : List (String × Nat)) (c k : String) (v : Nat)
    (hck : (c == k) = false) (hnd : (d.map Prod.fst).Nodup) :
    AnalyticsEngine.pyDictGetD (AnalyticsEngine.pyDictSet d c v) k 0 =
      AnalyticsEngine.pyDictGetD d k 0 := by
  induction d with
  | nil => simp [AnalyticsEngine.pyDictSet, AnalyticsEngine.pyDictGetD, hck]
  | cons p rest ih =>
    cases hpc : p.1 == c with
    | true =>
      have hc : p.1 = c := by simpa using hpc
      rw [pyDictSet_cons_self p rest c v hpc hnd, pyDictGetD_cons, pyDictGetD_cons,
        if_neg (by simp [hck]), if_neg (by simp [hc]; simpa using hck)]
    | false =>
      rw [pyDictSet_cons_ne p rest c v hpc, pyDictGetD_cons, pyDictGetD_cons]
      cases hpk : p.1 == k with
      | true => simp [hpk]
      | false =>
        simp only [hpk, Bool.false_eq_true, if_false]
        exact ih (List.nodup_cons.mp (by simpa using hnd)).2

/-- A `pyDictSet` that increments one key's count raises the sum of the
dict's values by exactly one (keys distinct). -/
lemma pyDictSet_sum (d : List (String × Nat)) (c : String)
    (hnd : (d.map Prod.fst).Nodup) :
    ((AnalyticsEngine.pyDictSet d c
        (AnalyticsEngine.pyDictGetD d c 0 + 1)).map Prod.snd).sum =
      (d.map Prod.snd).sum + 1 := by
  induction d with
  | nil => simp [AnalyticsEngine.pyDictSet, AnalyticsEngine.pyDictGetD]
  | cons p rest ih =>
    cases hpc : p.1 == c with
    | true =>
      rw [pyDictGetD_cons, if_pos hpc, pyDictSet_cons_self p rest c _ hpc hnd]
      simp only [List.map_cons, List.sum_cons]
      omega
    | false =>
      rw [pyDictGetD_cons, if_neg (by simp [hpc]), pyDictSet_cons_ne p rest c _ hpc]
      simp only [List.map_cons, List.sum_cons]
      rw [ih (List.nodup_cons.mp (by simpa using hnd)).2]
      omega

/-- `pyDictSet` keeps the dict's keys distinct. -/
lemma pyDictSet_nodup (d : List (String × Nat)) (c : String) (v : Nat)
    (hnd : (d.map Prod.fst).Nodup) :
    ((AnalyticsEngine.pyDictSet d c v).map Prod.fst).Nodup := by
  unfold AnalyticsEngine.pyDictSet
  cases hany : d.any (fun q => q.1 == c) with
  | true =>
    have hkeys : (d.map (fun q => if q.1 == c then (c, v) else q)).map Prod.fst =
        d.map Prod.fst := by
      rw [List.map_map]
      apply List.map_congr_left
      intro q _
      cases hqc : q.1 == c with
      | true =>
        have hq1 : q.1 = c := by simpa using hqc
        simp [Function.comp, hqc, hq1]
      | false => simp [Function.comp, hqc]
    rw [if_pos rfl, hkeys]
    exact hnd
  | false =>
    have hcnot : c ∉ d.map Prod.fst := by
      intro hcmem
      obtain ⟨q, hq, hq1⟩ := List.mem_map.mp hcmem
      have := List.any_eq_false.mp hany q hq
      simp [hq1] at this
    rw [if_neg (by simp), List.map_append]
    simp [List.nodup_append, hnd, hcnot]

/-- `tallyStep` keeps the dict's keys distinct. -/
lemma tallyStep_nodup (d : List (String × Nat)) (b : BookingRec)
    (hnd : (d.map Prod.fst).Nodup) :
    ((AnalyticsEngine.tallyStep d b).map Prod.fst).Nodup :=
  pyDictSet_nodup d _ _ hnd

/-- The count read back after one `tallyStep`: the processed booking's own
classification key went up by one, every other key is unchanged. -/
lemma tallyStep_getD (d : List (String × Nat)) (b : BookingRec) (k : String)
    (hnd : (d.map Prod.fst).Nodup) :
    AnalyticsEngine.pyDictGetD (AnalyticsEngine.tallyStep d b) k 0 =
      AnalyticsEngine.pyDictGetD d k 0 +
        (if b.category.getD "UNKNOWN" == k then 1 else 0) := by
  unfold AnalyticsEngine.tallyStep
  cases hck : b.category.getD "UNKNOWN" == k with
  | true =>
    have hc : b.category.getD "UNKNOWN" = k := by simpa using hck
    rw [hc, pyDictGetD_set_self _ _ _ hnd]
    simp
  | false =>
    rw [pyDictGetD_set_ne _ _ _ _ hck hnd]
    simp [hck]

/-- One `tallyStep` raises the sum of the tally's counts by exactly one. -/
lemma tallyStep_sum (d : List (String × Nat)) (b : BookingRec)
    (hnd : (d.map Prod.fst).Nodup) :
    ((AnalyticsEngine.tallyStep d b).map Prod.snd).sum =
      (d.map Prod.snd).sum + 1 :=
  pyDictSet_sum d _ hnd

/-- Invariant of the whole tally loop, for any starting dict with distinct
keys: keys stay distinct, each key's count grows by the number of bookings
classified to it, and the value sum grows by the number of bookings. -/
lemma tally_foldl_spec (bs : List BookingRec) :
    ∀ d : List (String × Nat), (d.map Prod.fst).Nodup →
      (((bs.foldl AnalyticsEngine.tallyStep d).map Prod.fst).Nodup ∧
       (∀ k, AnalyticsEngine.pyDictGetD (bs.foldl AnalyticsEngine.tallyStep d) k 0 =
          AnalyticsEngine.pyDictGetD d k 0 +
            bs.countP (fun b => b.category.getD "UNKNOWN" == k)) ∧
       ((bs.foldl AnalyticsEngine.tallyStep d).map Prod.snd).sum =
          (d.map Prod.snd).sum + bs.length) := by
  induction bs with
  | nil =>
    intro d hnd
    simpa using hnd
  | cons b rest ih =>
    intro d hnd
    obtain ⟨ih1, ih2, ih3⟩ := ih (AnalyticsEngine.tallyStep d b) (tallyStep_nodup d b hnd)
    rw [List.foldl_cons]
    refine ⟨ih1, fun k => ?_, ?_⟩
    · rw [ih2 k, tallyStep_getD d b k hnd, List.countP_cons]
      cases hck : b.category.getD "UNKNOWN" == k <;>
        · simp [hck]
          try omega
    · rw [ih3, tallyStep_sum d b hnd, List.length_cons]
      omega

/-- C6: the category tally maps each classification value (a missing
`Category` classifying as "UNKNOWN") to its number of occurrences among
the given active bookings; in particular every booking with a missing
category is counted under the explicit "UNKNOWN" key rather than dropped,
and the tally's counts sum to the number of bookings. -/
theorem categories_tally_spec (bookings : List BookingRec) :
    (∀ k, AnalyticsEngine.pyDictGetD (AnalyticsEngine.categoriesTally bookings) k 0 =
        bookings.countP (fun b => b.category.getD "UNKNOWN" == k)) ∧
    bookings.countP (fun b => b.category.isNone) ≤
      AnalyticsEngine.pyDictGetD (AnalyticsEngine.categoriesTally bookings) "UNKNOWN" 0 ∧
    ((AnalyticsEngine.categoriesTally bookings).map Prod.snd).sum = bookings.length := by
  obtain ⟨h1, h2, h3⟩ := tally_foldl_spec bookings [] (by simp)
  have hget : ∀ k, AnalyticsEngine.pyDictGetD (AnalyticsEngine.categoriesTally bookings) k 0 =
      bookings.countP (fun b => b.category.getD "UNKNOWN" == k) := by
    intro k
    have := h2 k
    simpa [AnalyticsEngine.categoriesTally, AnalyticsEngine.pyDictGetD] using this
  refine ⟨hget, ?_, by simpa [AnalyticsEngine.categoriesTally] using h3⟩
  rw [hget "UNKNOWN"]
  apply List.countP_mono_left
  intro b _ hbn
  cases hcat : b.category with
  | none => simp
  | some s => rw [hcat] at hbn; simp at hbn

/-- C5 amended: provided the feedback sheet holds at most 100 records (the
daily report examines only the 100 most recent feedback records), the
report's `guest_feedback_count` is the number of feedback records dated
the target date, and its `average_rating` is the arithmetic mean of their
ratings, `0` when there are none. -/
theorem daily_report_feedback_spec
    (bookings_sheet : Except String (List BookingRec))
    (expenses_sheet : Except String (List ExpenseRec))
    (records : List FeedbackRec) (today target_date : Int)
    (h : records.length ≤ 100) :
    (AnalyticsEngine.generate_daily_report bookings_sheet expenses_sheet
        (Except.ok records) today target_date).guest_feedback_count =
      (records.filter (fun f => decide (f.date = target_date))).length ∧
    (records.filter (fun f => decide (f.date = target_date)) = [] →
      (AnalyticsEngine.generate_daily_report bookings_sheet expenses_sheet
        (Except.ok records) today target_date).average_rating = 0) ∧
    (records.filter (fun f => decide (f.date = target_date)) ≠ [] →
      (AnalyticsEngine.generate_daily_report bookings_sheet expenses_sheet
        (Except.ok records) today target_date).average_rating =
      ((records.filter (fun f => decide (f.date = target_date))).map
          (fun f => f.rating.getD 0)).sum /
        (((records.filter (fun f => decide (f.date = target_date))).length : ℚ))) := by
  have htake : BookingTracker.get_recent_feedback (Except.ok records) 100 =
      records.insertionSort (fun a b => b.date ≤ a.date) := by
    unfold BookingTracker.get_recent_feedback
    exact List.take_of_length_le (by rw [List.length_insertionSort]; exact h)
  have hperm : List.Perm
      ((records.insertionSort (fun a b => b.date ≤ a.date)).filter
        (fun f => decide (f.date = target_date)))
      (records.filter (fun f => decide (f.date = target_date))) :=
    (List.perm_insertionSort _ records).filter _
  have hlen := hperm.length_eq
  have hsum := (hperm.map (fun f => f.rating.getD 0)).sum_eq
  refine ⟨?_, ?_, ?_⟩
  · simp only [AnalyticsEngine.generate_daily_report, htake]
    exact hlen
  · intro hnil
    have hsorted : (records.insertionSort (fun a b => b.date ≤ a.date)).filter
        (fun f => decide (f.date = target_date)) = [] := by
      rw [← List.length_eq_zero, hlen, hnil, List.length_nil]
    simp only [AnalyticsEngine.generate_daily_report, htake, hsorted, List.isEmpty_nil,
      if_true]
  · intro hne
    have hsorted_ne : ((records.insertionSort (fun a b => b.date ≤ a.date)).filter
        (fun f => decide (f.date = target_date))).isEmpty = false := by
      rw [List.isEmpty_eq_false_iff_exists_mem]
      have : (records.filter (fun f => decide (f.date = target_date))).length ≠ 0 := by
        simpa [List.length_eq_zero] using hne
      rcases List.exists_mem_of_length_pos (by omega : 0 < ((records.insertionSort
        (fun a b => b.date ≤ a.date)).filter (fun f => decide (f.date = target_date))).length)
        with ⟨a, ha⟩
      exact ⟨a, ha⟩
    simp only [AnalyticsEngine.generate_daily_report, htake, hsorted_ne, Bool.false_eq_true,
      if_false, average]
    have hmap_ne : (((records.insertionSort (fun a b => b.date ≤ a.date)).filter
        (fun f => decide (f.date = target_date))).map
          (fun f => f.rating.getD 0)).isEmpty = false := by
      simpa [List.isEmpty_eq_false_iff_exists_mem, List.mem_map]
        using List.isEmpty_eq_false_iff_exists_mem.mp hsorted_ne
    rw [if_neg (by simp [hmap_ne]), hsum]
    simp [hlen]

/-- Witness for C5's amended theorem at a one-record sheet: the report for
day 5 counts the single day-5 record and averages its rating 4. -/
theorem daily_report_feedback_spec_witness :
    (AnalyticsEngine.generate_daily_report (Except.ok []) (Except.ok [])
        (Except.ok [{ feedback_id := "F1", date := 5, rating := some 4 }]) 0
        5).guest_feedback_count = 1 ∧
    (AnalyticsEngine.generate_daily_report (Except.ok []) (Except.ok [])
        (Except.ok [{ feedback_id := "F1", date := 5, rating := some 4 }]) 0
        5).average_rating = 4 := by
  have h := daily_report_feedback_spec (Except.ok []) (Except.ok [])
    [{ feedback_id := "F1", date := 5, rating := some 4 }] 0 5 (by norm_num)
  constructor
  · rw [h.1]; rfl
  · rw [h.2.2 (by decide)]; norm_num

/-- C5 counterexample: with 101 feedback records on the sheet, the daily
report for day 5 does not report the count and mean over all records dated
day 5 (there is exactly one, rating 4): the report examines only the 100
most recent records and the day-5 record is the oldest, so it is dropped
and the report yields count 0 and rating 0. -/
theorem daily_report_feedback_cex :
    ¬ ((AnalyticsEngine.generate_daily_report (Except.ok []) (Except.ok [])
          (Except.ok feedback_overflow) 0 5).guest_feedback_count =
        (feedback_overflow.filter (fun f => decide (f.date = 5))).length ∧
       (AnalyticsEngine.generate_daily_report (Except.ok []) (Except.ok [])
          (Except.ok feedback_overflow) 0 5).average_rating =
        average ((feedback_overflow.filter (fun f => decide (f.date = 5))).map
          (fun f => f.rating.getD 0))) := by
  decide

/-- C9: the low-occupancy check returns an alert payload (carrying the
occupancy, the threshold, and the available-room count) iff the report's
occupancy percentage is strictly below the threshold; at or above the
threshold it returns `none` ("no alert"), which is a regular value, not an
error. -/
theorem low_occupancy_alert_spec (report : DailyReport) :
    ((∃ a, AnalyticsEngine.get_low_occupancy_alert report = some a) ↔
        report.occupancy_percentage < Config.LOW_OCCUPANCY_THRESHOLD) ∧
    (report.occupancy_percentage < Config.LOW_OCCUPANCY_THRESHOLD →
      AnalyticsEngine.get_low_occupancy_alert report =
        some { occupancy := report.occupancy_percentage
               threshold := Config.LOW_OCCUPANCY_THRESHOLD
               available_rooms := report.available_rooms }) ∧
    (Config.LOW_OCCUPANCY_THRESHOLD ≤ report.occupancy_percentage →
      AnalyticsEngine.get_low_occupancy_alert report = none) := by
  unfold AnalyticsEngine.get_low_occupancy_alert
  split_ifs with h
  · exact ⟨⟨fun _ => h, fun _ => ⟨_, rfl⟩⟩, fun _ => rfl,
      fun h2 => absurd h (not_lt.2 h2)⟩
  · refine ⟨⟨fun ⟨a, ha⟩ => by simp at ha, fun hh => absurd hh h⟩,
      fun hh => absurd hh h, fun _ => rfl⟩

/-- Witness for C9: a report at 55% occupancy (below the threshold 60)
yields an alert carrying 55, the threshold, and the room count, while a
report at 60% yields no alert. -/
theorem low_occupancy_alert_spec_witness :
    AnalyticsEngine.get_low_occupancy_alert
      { report_date := 0, total_rooms := 10, occupied_rooms := 5
        available_rooms := 5, occupancy_percentage := 55, check_ins := 0
        check_outs := 0, total_revenue := 0, total_expenses := 0
        net_profit := 0, advance_collected := 0, balance_pending := 0
        new_bookings := 0, cancellations := 0, average_room_rate := 0
        guest_feedback_count := 0, average_rating := 0 } =
      some { occupancy := 55, threshold := Config.LOW_OCCUPANCY_THRESHOLD
             available_rooms := 5 } ∧
    AnalyticsEngine.get_low_occupancy_alert
      { report_date := 0, total_rooms := 10, occupied_rooms := 6
        available_rooms := 4, occupancy_percentage := 60, check_ins := 0
        check_outs := 0, total_revenue := 0, total_expenses := 0
        net_profit := 0, advance_collected := 0, balance_pending := 0
        new_bookings := 0, cancellations := 0, average_room_rate := 0
        guest_feedback_count := 0, average_rating := 0 } = none := by
  constructor
  · exact (low_occupancy_alert_spec _).2.1
      (by norm_num [Config.LOW_OCCUPANCY_THRESHOLD])
  · exact (low_occupancy_alert_spec _).2.2
      (by norm_num [Config.LOW_OCCUPANCY_THRESHOLD])

end HotelNico
